import Mathlib

/-!
Shallow embedding of the `shark` CLI agent (Rust sources `src/shark.rs`,
`src/tools/rust_toolchain_switcher.rs`, `src/main.rs`) for checking the
natural-language specification against the code.

The orchestrator (`Shark` in `src/shark.rs`) sequences a decision phase
(ask the backend which tool, if any, to use), an optional tool-call plus
summarization phase, and a final streaming generation.  The external
collaborators (the Ollama backend, the spawned `rustup` process) are
modelled as explicit environment data passed to the embedded functions;
everything the repository's own code computes is translated directly.
-/

set_option autoImplicit false

namespace Shark

/-- The apostrophe character, `'` (U+0027). -/
def apos : Char := Char.ofNat 39

/-- The double-quote character, `"` (U+0022). -/
def dquo : Char := Char.ofNat 34

/-- The backslash character, `\` (U+005C). -/
def bslash : Char := Char.ofNat 92

/-- Left brace `\x7b` and right brace `\x7d` as characters. -/
def lbrace : Char := Char.ofNat 123

/-- Right brace character. -/
def rbrace : Char := Char.ofNat 125

/-- Drop leading whitespace characters (models the leading half of Rust
`str::trim`). -/
def ltrimChars : List Char → List Char
  | [] => []
  | c :: rest => if c.isWhitespace then ltrimChars rest else c :: rest

/-- Models Rust `str::trim`: drop leading and trailing whitespace. -/
def trimChars (l : List Char) : List Char :=
  (ltrimChars (ltrimChars l).reverse).reverse

/-- Models Rust `str::to_lowercase` character-wise (the strings the program
compares are ASCII, where `Char.toLower` agrees with Rust). -/
def toLowerChars (l : List Char) : List Char :=
  l.map Char.toLower

/-- Models the Rust idiom `s.trim().to_lowercase()` used both by
`Shark::parse_functions` (line 181) and `Shark::request_function`
(lines 150-154). -/
def trimLower (s : String) : String :=
  ⟨toLowerChars (trimChars s.data)⟩

/-- Models Rust `s.replace("'", "")` from `Shark::request_function`
(line 155): every apostrophe is removed. -/
def removeApostrophes (s : String) : String :=
  ⟨s.data.filter (fun c => ¬ c = apos)⟩

/-- The full name normalization of `Shark::request_function` lines 150-155:
`trim().to_lowercase().replace("'", "")`. -/
def normalizeFunctionName (s : String) : String :=
  removeApostrophes (trimLower s)

/-- Claim-side normalization, following the specification's wording
("stripping surrounding quote characters", §4.2 step 5): remove one
matching pair of surrounding single or double quotes.  Used only to
state claims; the code's own normalization is `normalizeFunctionName`,
which instead removes every apostrophe (and no double quote). -/
def stripSurroundingQuotes (l : List Char) : List Char :=
  match l with
  | [] => []
  | c :: rest =>
    if (c = apos ∨ c = dquo) ∧ rest.getLast? = some c then rest.dropLast
    else c :: rest

/-- JSON values, as produced by `serde_json` parsing backend output.
`obj` keeps the field list of the JSON text, so a duplicated field can be
modelled (serde rejects a duplicated struct field). -/
inductive Json where
  | null
  | bool (b : Bool)
  | num (n : Int)
  | str (s : String)
  | arr (elems : List Json)
  | obj (fields : List (String × Json))

/-- First binding of a key in an object's field list (JSON objects produced
by `serde_json::Value` have unique keys, so first-match is exact there). -/
def objLookup : List (String × Json) → String → Option Json
  | [], _ => none
  | (k, v) :: rest, key => if k = key then some v else objLookup rest key

/-- Models `serde_json::Value`'s `Index<&str>`: `input["toolchain"]` yields
the field's value on an object that has the key, and `Null` otherwise
(also on non-objects). -/
def jsonIndex (j : Json) (key : String) : Json :=
  match j with
  | .obj fields => (objLookup fields key).getD .null
  | _ => .null

/-- Models `serde_json::Value::as_str`: `some` exactly on JSON strings. -/
def Json.as_str : Json → Option String
  | .str s => some s
  | _ => none

/-- Raw text returned by the backend for the decision phase: either
well-formed JSON (given by its parsed value) or text that is not JSON
at all. -/
inductive RawJson where
  | malformed (text : String)
  | wellFormed (j : Json)

/-- Models `serde_json::from_str::<FucntionResponse>` (line 145) against
`struct FucntionResponse { function: Option<String> }` (lines 200-203):
the text must be a JSON object; the `function` field may be absent
(`None`), JSON `null` (`None`) or a string; any other type for the field,
a duplicated field, or a non-object payload is a parse error.  Unknown
extra fields are ignored (serde's default: no `deny_unknown_fields`).
`parseFunctionField` handles the occurrences of the `function` field
found in the object; `fromStrFucntionResponse` is the full parser. -/
def parseFunctionField : List (String × Json) → Except String (Option String)
  | [] => .ok none
  | [(_, .null)] => .ok none
  | [(_, .str s)] => .ok (some s)
  | [(_, _)] => .error "invalid type for field function"
  | _ => .error "duplicate field function"

/-- The full `serde_json::from_str::<FucntionResponse>` parser; see
`parseFunctionField` for the handling of the `function` field. -/
def fromStrFucntionResponse : RawJson → Except String (Option String)
  | .malformed t => .error ("expected value: " ++ t)
  | .wellFormed (.obj fields) =>
    parseFunctionField (fields.filter (fun p => p.1 == "function"))
  | .wellFormed _ => .error "invalid type: expected struct FucntionResponse"

/-- The statically known tool capabilities of `Shark::parse_functions`
(lines 183-191): `DDGSearcher` from the `ollama_rs` library and the
repository's own `RustToolchainSwitcher`. -/
inductive ToolImpl where
  | ddgSearcher
  | rustToolchainSwitcher
deriving DecidableEq

/-- `RustToolchainSwitcher::description` (rust_toolchain_switcher.rs
lines 17-19). -/
def RustToolchainSwitcher.description : String :=
  "Switch rust toolchain between " ++ ⟨[apos]⟩ ++ "stable" ++ ⟨[apos]⟩
    ++ ", " ++ ⟨[apos]⟩ ++ "nightly" ++ ⟨[apos]⟩ ++ " and others"

/-- Description of `DDGSearcher`; its text lives in the external
`ollama_rs` library, not in this repository, and no claim depends on it. -/
def DDGSearcher.description : String :=
  "DuckDuckGo search tool provided by the ollama-rs library"

/-- `Tool::description` dispatch over the known capabilities. -/
def ToolImpl.description : ToolImpl → String
  | .ddgSearcher => DDGSearcher.description
  | .rustToolchainSwitcher => RustToolchainSwitcher.description

/-- Lookup in the catalog, models `HashMap::get` (line 161). -/
def mapLookup (m : List (String × ToolImpl)) (k : String) : Option ToolImpl :=
  match m with
  | [] => none
  | (k2, v) :: rest => if k2 = k then some v else mapLookup rest k

/-- Insertion with overwrite, models `HashMap::insert`
(lines 184 and 187-190). -/
def mapInsert (m : List (String × ToolImpl)) (k : String) (v : ToolImpl) :
    List (String × ToolImpl) :=
  (k, v) :: m.filter (fun p => ¬ p.1 = k)

/-- One iteration of the loop body of `Shark::parse_functions`
(lines 180-194): normalize the requested name; insert the matching
capability, or skip with a printed diagnostic (a no-op here). -/
def parseStep (acc : List (String × ToolImpl)) (f : String) :
    List (String × ToolImpl) :=
  if trimLower f = "ddg_searcher" then
    mapInsert acc "ddg_searcher" .ddgSearcher
  else if trimLower f = "rust_toolchain_switcher" then
    mapInsert acc "rust_toolchain_switcher" .rustToolchainSwitcher
  else
    acc

/-- Models `Shark::parse_functions` (lines 178-197).  It is a total
function: no input list makes it fail. -/
def parse_functions (functions : List String) : List (String × ToolImpl) :=
  functions.foldl parseStep []

/-- The decision logic of `Shark::request_function` applied to the decision
text the backend returned (lines 145-165): parse strictly (`?` on
`serde_json::from_str` propagates a parse failure as a hard error),
treat an absent/null field as no tool, normalize the name, treat the
literal `"null"` as no tool, and look the name up in the catalog —
a miss is `None`, never an error. -/
def request_function (functions : List (String × ToolImpl)) (raw : RawJson) :
    Except String (Option ToolImpl) :=
  match fromStrFucntionResponse raw with
  | .error e => .error e
  | .ok none => .ok none
  | .ok (some s) =>
    let function_name := normalizeFunctionName s
    if function_name = "null" then .ok none
    else
      match mapLookup functions function_name with
      | some f => .ok (some f)
      | none => .ok none

/-- A chat message, as in `ollama_rs::generation::chat::ChatMessage`. -/
structure ChatMessage where
  content : String
deriving DecidableEq

/-- The backend's reply to `send_function_call`: the message is optional
in `ollama_rs::generation::chat::ChatMessageResponse`. -/
structure ChatMessageResponse where
  message : Option ChatMessage
deriving DecidableEq

/-- A `GenerationResponseStream` handle, abstracted to the prompt the
stream was opened for: the claims concern which prompt reaches the
backend's streaming endpoint, not the fragments it emits. -/
structure GenerationResponseStream where
  prompt : String
deriving DecidableEq

/-- The external Ollama backend's behaviour for one request, as observed
by `Shark`: the decision-phase `generate` result (transport error, or
the raw reply text), the `send_function_call` result, and whether
opening a generation stream succeeds.  Each field is consulted at most
once per run of `generate_stream`. -/
structure BackendEnv where
  decisionResponse : Except String RawJson
  functionCallResponse : Except String ChatMessageResponse
  streamResult : Except String Unit

/-- Outcome of running a Rust function that can return `Ok`, propagate an
error with `?`, or panic via `unwrap()` on `None`. -/
inductive RunResult (α : Type) where
  | ok (a : α)
  | err (e : String)
  | panics
deriving DecidableEq

/-- Which of the two orchestrator paths a successful run took. -/
inductive PathTaken where
  | tool
  | direct
deriving DecidableEq

/-- Backend interactions performed by one run of `generate_stream`, in
order: a non-streaming `generate` (decision phase), a
`send_function_call`, or opening a `generate_stream` on a prompt. -/
inductive Event where
  | generated (prompt : String)
  | calledFunction (tool : ToolImpl)
  | streamedGeneration (prompt : String)
deriving DecidableEq

/-- Is the event the opening of a streaming generation? -/
def Event.isStream : Event → Bool
  | .streamedGeneration _ => true
  | _ => false

/-- Is the event a function call against the backend? -/
def Event.isCall : Event → Bool
  | .calledFunction _ => true
  | _ => false

/-- A surrounding pair of apostrophes, as text. -/
def sq (s : String) : String := ⟨[apos]⟩ ++ s ++ ⟨[apos]⟩

/-- Rendering of `SHARK_FUNCTION_CALLING_PROMPT_TEMPLATE` (shark.rs
lines 16-30) with `{question, functionss_description}`: minijinja
substitutes the two variables literally into the template text. -/
def renderFunctionCalling (question functionss_description : String) : String :=
  "\nYou are a helpful assistant, you can decide whether to use functions to answer user"
    ++ ⟨[apos]⟩ ++ "s question: " ++ question
    ++ "\nHere are the names and descriptions of the functions you can use:\n"
    ++ functionss_description
    ++ "\n\nIf you decide to use a function, please response in the following format:\n"
    ++ ⟨[lbrace]⟩ ++ "\n    " ++ ⟨[dquo]⟩ ++ "function" ++ ⟨[dquo]⟩ ++ ": "
    ++ ⟨[lbrace]⟩ ++ "name of the function" ++ ⟨[rbrace]⟩ ++ "\n" ++ ⟨[rbrace]⟩
    ++ "\n\nIf you don" ++ ⟨[apos]⟩
    ++ "t want to use any functions, please response in the follow format:\n"
    ++ ⟨[lbrace]⟩ ++ "\n    " ++ ⟨[dquo]⟩ ++ "function" ++ ⟨[dquo]⟩ ++ ": null\n"
    ++ ⟨[rbrace]⟩ ++ "\n"

/-- Rendering of `SHARK_GENERATATION_PROMPT_TEMPLATE` (shark.rs
lines 32-34) with `{question}`. -/
def renderGeneration (question : String) : String :=
  "\nYou are a helpful assistant called shark🦈, answer the question given by user: "
    ++ question ++ "\n"

/-- Rendering of `SHARK_SUMMARIZING_PROMPT_TEMPLATE` (shark.rs
lines 36-39) with `{question, answer}`. -/
def renderSummary (question answer : String) : String :=
  "\nYou are a helpful assistant called shark🦈, given user"
    ++ ⟨[apos]⟩ ++ "s question: " ++ question
    ++ " and the answer of the question: " ++ answer
    ++ ", try to give a short summary.\nJust response your summary content.\n"

/-- Minimal JSON string encoding (quote, escaping quotes and backslashes),
standing in for `serde_json::to_string` on string values. -/
def jsonEncodeString (s : String) : String :=
  ⟨[dquo] ++ (s.data.map fun c =>
      if c = dquo ∨ c = bslash then [bslash, c] else [c]).flatten ++ [dquo]⟩

/-- JSON object encoding of a string-to-string association list, in list
order, standing in for `serde_json::to_string` on a map. -/
def jsonEncodeObj (fields : List (String × String)) : String :=
  ⟨[lbrace]⟩
    ++ String.intercalate ","
        (fields.map fun p => jsonEncodeString p.1 ++ ":" ++ jsonEncodeString p.2)
    ++ ⟨[rbrace]⟩

/-- Models `Shark::functions_description` (lines 168-176): the catalog's
name-to-description map serialized as JSON (the Rust `HashMap` iterates
in an unspecified order; the embedding fixes the catalog's list order,
which no claim depends on). -/
def functions_description (functions : List (String × ToolImpl)) : String :=
  jsonEncodeObj (functions.map fun p => (p.1, p.2.description))

/-- Models `Shark::call_function` (lines 95-111): the request is built from
the question and the chosen tool and sent to the backend; the embedding
reads the backend's answer from the environment. -/
def call_function (env : BackendEnv) (_question : String) (_func : ToolImpl) :
    Except String ChatMessageResponse :=
  env.functionCallResponse

/-- Models `Shark::summarize_stream` (lines 113-126): render the summary
template with the question and the tool's answer, then open a
generation stream on the rendered prompt. -/
def summarize_stream (env : BackendEnv) (question answer : String) :
    Except String GenerationResponseStream :=
  let prompt := renderSummary question answer
  match env.streamResult with
  | .error e => .error e
  | .ok _ => .ok ⟨prompt⟩

/-- Models `Shark::generate_stream` (lines 73-93), instrumented with the
path taken and the trace of backend interactions.  The decision phase
is `Shark::request_function` (lines 128-166): render the decision
prompt, call the backend (`env.decisionResponse`), then apply
`request_function` to the returned text.  On `Some(func)`,
`call_function` runs; `?` propagates its error; `.message.unwrap()`
panics when the message is absent (line 81); otherwise
`summarize_stream` renders and streams the summary prompt.  On `None`,
the generation template is rendered and streamed directly. -/
def generate_stream (functions : List (String × ToolImpl)) (env : BackendEnv)
    (question : String) :
    RunResult (PathTaken × GenerationResponseStream) × List Event :=
  let decisionPrompt :=
    renderFunctionCalling question (functions_description functions)
  match env.decisionResponse with
  | .error e => (.err e, [.generated decisionPrompt])
  | .ok raw =>
    match request_function functions raw with
    | .error e => (.err e, [.generated decisionPrompt])
    | .ok (some func) =>
      match call_function env question func with
      | .error e => (.err e, [.generated decisionPrompt, .calledFunction func])
      | .ok resp =>
        match resp.message with
        | none => (.panics, [.generated decisionPrompt, .calledFunction func])
        | some msg =>
          match summarize_stream env question msg.content with
          | .error e =>
            (.err e,
              [.generated decisionPrompt, .calledFunction func,
                .streamedGeneration (renderSummary question msg.content)])
          | .ok stream =>
            (.ok (.tool, stream),
              [.generated decisionPrompt, .calledFunction func,
                .streamedGeneration stream.prompt])
    | .ok none =>
      let prompt := renderGeneration question
      match env.streamResult with
      | .error e =>
        (.err e, [.generated decisionPrompt, .streamedGeneration prompt])
      | .ok _ =>
        (.ok (.direct, ⟨prompt⟩),
          [.generated decisionPrompt, .streamedGeneration prompt])

/-- Output of the spawned `rustup` process: captured stdout and stderr
(taken as already valid UTF-8 text). -/
structure ProcessOutput where
  stdout : String
  stderr : String

/-- Models `RustToolchainSwitcher::run` (rust_toolchain_switcher.rs
lines 34-58), with the `rustup default <version>` invocation abstracted
as `exec`.  Line 35 is `input["toolchain"].as_str().unwrap()`: when the
field is absent or not a string, `as_str` is `None` and `unwrap`
panics; a process error is propagated with `?`; otherwise the response
map is serialized. -/
def RustToolchainSwitcher.run
    (exec : String → Except String ProcessOutput) (input : Json) :
    RunResult String :=
  match (jsonIndex input "toolchain").as_str with
  | none => .panics
  | some version =>
    match exec version with
    | .error e => .err e
    | .ok output =>
      let output_content :=
        if output.stdout.length > 0 then output.stdout else ""
      let output_error :=
        if output.stderr.length > 0 then output.stderr else ""
      .ok (jsonEncodeObj [("result", output_content), ("error", output_error)])

/-! ### Helper lemmas -/

theorem data_append (a b : String) : (a ++ b).data = a.data ++ b.data := rfl

theorem mapLookup_filter_ne (m : List (String × ToolImpl)) (k k2 : String)
    (h : k ≠ k2) :
    mapLookup (m.filter fun p => ¬ p.1 = k2) k = mapLookup m k := by
  induction m with
  | nil => rfl
  | cons a m ih =>
    simp only [decide_not] at ih
    by_cases ha : a.1 = k2
    · have hne : ¬ k2 = k := fun hk => h hk.symm
      simp [List.filter_cons, ha, mapLookup, hne, ih]
    · simp [List.filter_cons, ha, mapLookup, ih]

theorem mapLookup_mapInsert_self (m : List (String × ToolImpl)) (k : String)
    (v : ToolImpl) : mapLookup (mapInsert m k v) k = some v := by
  rw [mapInsert, mapLookup, if_pos rfl]

theorem mapLookup_mapInsert_ne (m : List (String × ToolImpl)) (k k2 : String)
    (v : ToolImpl) (h : k ≠ k2) :
    mapLookup (mapInsert m k2 v) k = mapLookup m k := by
  rw [mapInsert, mapLookup, if_neg (fun hk => h hk.symm)]
  exact mapLookup_filter_ne m k k2 h

/-- The two keys `parse_functions` can ever insert, paired with the values
it inserts for them. -/
def knownPair (k : String) (v : ToolImpl) : Prop :=
  (k = "ddg_searcher" ∧ v = .ddgSearcher) ∨
    (k = "rust_toolchain_switcher" ∧ v = .rustToolchainSwitcher)

theorem parseStep_preserves_known (k : String) (v : ToolImpl)
    (hk : knownPair k v) (acc : List (String × ToolImpl)) (g : String)
    (h : mapLookup acc k = some v) : mapLookup (parseStep acc g) k = some v := by
  rw [parseStep]
  by_cases h1 : trimLower g = "ddg_searcher"
  · rw [if_pos h1]
    rcases hk with ⟨hk1, hk2⟩ | ⟨hk1, hk2⟩
    · rw [hk1, hk2, mapLookup_mapInsert_self]
    · rw [mapLookup_mapInsert_ne _ _ _ _ (by rw [hk1]; decide), h]
  · rw [if_neg h1]
    by_cases h2 : trimLower g = "rust_toolchain_switcher"
    · rw [if_pos h2]
      rcases hk with ⟨hk1, hk2⟩ | ⟨hk1, hk2⟩
      · rw [mapLookup_mapInsert_ne _ _ _ _ (by rw [hk1]; decide), h]
      · rw [hk1, hk2, mapLookup_mapInsert_self]
    · rw [if_neg h2]
      exact h

theorem foldl_parseStep_preserves_known (k : String) (v : ToolImpl)
    (hk : knownPair k v) (fs : List String) :
    ∀ acc, mapLookup acc k = some v →
      mapLookup (fs.foldl parseStep acc) k = some v := by
  induction fs with
  | nil => exact fun acc h => h
  | cons g rest ih =>
    intro acc h
    exact ih (parseStep acc g) (parseStep_preserves_known k v hk acc g h)

theorem foldl_parseStep_inserts_known (k : String) (v : ToolImpl)
    (hk : knownPair k v) (fs : List String) :
    ∀ acc f, f ∈ fs → trimLower f = k →
      mapLookup (fs.foldl parseStep acc) k = some v := by
  induction fs with
  | nil => exact fun acc f hf _ => absurd hf (List.not_mem_nil f)
  | cons g rest ih =>
    intro acc f hf htrim
    rcases List.mem_cons.mp hf with hfg | hfr
    · have hg : trimLower g = k := hfg ▸ htrim
      refine foldl_parseStep_preserves_known k v hk rest (parseStep acc g) ?_
      rw [parseStep, hg]
      rcases hk with ⟨hk1, hk2⟩ | ⟨hk1, hk2⟩
      · rw [hk1, if_pos rfl, hk2, ← hk1, mapLookup_mapInsert_self]
      · rw [hk1, if_neg (by decide), if_pos rfl, hk2, ← hk1,
          mapLookup_mapInsert_self]
    · exact ih (parseStep acc g) f hfr htrim

theorem foldl_parseStep_other (fs : List String) (k : String)
    (h1 : k ≠ "ddg_searcher") (h2 : k ≠ "rust_toolchain_switcher") :
    ∀ acc, mapLookup (fs.foldl parseStep acc) k = mapLookup acc k := by
  induction fs with
  | nil => exact fun acc => rfl
  | cons g rest ih =>
    intro acc
    rw [List.foldl_cons, ih (parseStep acc g), parseStep]
    by_cases hg1 : trimLower g = "ddg_searcher"
    · rw [if_pos hg1, mapLookup_mapInsert_ne _ _ _ _ h1]
    · rw [if_neg hg1]
      by_cases hg2 : trimLower g = "rust_toolchain_switcher"
      · rw [if_pos hg2, mapLookup_mapInsert_ne _ _ _ _ h2]
      · rw [if_neg hg2]

/-- Keys other than the two known capability names never appear in a
catalog built by `parse_functions`. -/
theorem mapLookup_parse_functions_other (fs : List String) (k : String)
    (h1 : k ≠ "ddg_searcher") (h2 : k ≠ "rust_toolchain_switcher") :
    mapLookup (parse_functions fs) k = none :=
  foldl_parseStep_other fs k h1 h2 []

/-- If claim-side quote stripping of a character list yields `null`, the
list is `null` itself, or `null` surrounded by a matching pair of
single or double quotes. -/
theorem stripSurroundingQuotes_eq_null (l : List Char)
    (h : stripSurroundingQuotes l = "null".data) :
    l = "null".data ∨ l = apos :: ("null".data ++ [apos]) ∨
      l = dquo :: ("null".data ++ [dquo]) := by
  match l with
  | [] => exact absurd h (by decide)
  | c :: rest =>
    by_cases hc : (c = apos ∨ c = dquo) ∧ rest.getLast? = some c
    · rw [stripSurroundingQuotes, if_pos hc] at h
      obtain ⟨hq, hl⟩ := hc
      have hrest : rest = "null".data ++ [c] := by
        rw [← List.dropLast_append_getLast? c hl, h]
      rcases hq with hq | hq
      · exact Or.inr (Or.inl (by rw [hrest, hq]))
      · exact Or.inr (Or.inr (by rw [hrest, hq]))
    · rw [stripSurroundingQuotes, if_neg hc] at h
      exact Or.inl h

/-- Unfolding of `request_function` on a payload whose `function` field is
the single string `s`. -/
theorem request_function_str (functions : List (String × ToolImpl)) (s : String) :
    request_function functions (.wellFormed (.obj [("function", .str s)])) =
      (if normalizeFunctionName s = "null" then .ok none
       else
         match mapLookup functions (normalizeFunctionName s) with
         | some f => .ok (some f)
         | none => .ok none) := rfl

/-- Computation of the code's normalization from the character data of the
already trimmed and lower-cased name. -/
theorem normalizeFunctionName_data (s : String) :
    normalizeFunctionName s = ⟨(trimLower s).data.filter (fun c => ¬ c = apos)⟩ :=
  rfl

/-! ### Claim theorems -/

/-- C1: for every Decision JSON payload whose `function` field names a tool
whose normalized name is not a key of the catalog, `request_function`
returns `NoTool` (`none`) rather than an error: a catalog miss is
fail-open, never fail-closed. -/
theorem C1_catalog_miss_fail_open (functions : List (String × ToolImpl))
    (s : String) (h : mapLookup functions (normalizeFunctionName s) = none) :
    request_function functions (.wellFormed (.obj [("function", .str s)])) =
      .ok none := by
  rw [request_function_str]
  by_cases hnull : normalizeFunctionName s = "null"
  · rw [if_pos hnull]
  · rw [if_neg hnull, h]

/-- Witness for C1: the name `web_search` is not in the catalog built from
`["ddg_searcher"]`, and the decision on it is `NoTool`. -/
theorem C1_catalog_miss_fail_open_witness :
    mapLookup (parse_functions ["ddg_searcher"])
        (normalizeFunctionName "web_search") = none ∧
    request_function (parse_functions ["ddg_searcher"])
        (.wellFormed (.obj [("function", .str "web_search")])) = .ok none :=
  ⟨by decide, C1_catalog_miss_fail_open _ "web_search" (by decide)⟩

/-- C2: on a catalog built by `parse_functions`, a Decision payload whose
`function` field is absent, JSON `null`, or a string equal to the
literal `null` after trimming, lower-casing and stripping surrounding
quote characters (any casing or quoting) yields `NoTool`. -/
theorem C2_null_function_noTool (fs : List String)
    (fields : List (String × Json)) (s : String)
    (habsent : fields.filter (fun p => p.1 == "function") = [])
    (hnull : stripSurroundingQuotes (trimLower s).data = "null".data) :
    request_function (parse_functions fs) (.wellFormed (.obj fields)) =
        .ok none ∧
    request_function (parse_functions fs)
        (.wellFormed (.obj [("function", Json.null)])) = .ok none ∧
    request_function (parse_functions fs)
        (.wellFormed (.obj [("function", .str s)])) = .ok none := by
  refine ⟨?_, rfl, ?_⟩
  · simp only [request_function, fromStrFucntionResponse, habsent]
    rfl
  · rw [request_function_str]
    rcases stripSurroundingQuotes_eq_null _ hnull with hA | hB | hC
    · rw [if_pos (by rw [normalizeFunctionName_data, hA]; decide)]
    · rw [if_pos (by rw [normalizeFunctionName_data, hB]; decide)]
    · have hn : normalizeFunctionName s = ⟨dquo :: ("null".data ++ [dquo])⟩ := by
        rw [normalizeFunctionName_data, hC]; decide
      rw [if_neg (by rw [hn]; decide), hn,
        mapLookup_parse_functions_other fs _ (by decide) (by decide)]

/-- Witness for C2: an object with no `function` field, the JSON `null`
field, and the double-quoted string `"NULL"` all decide to `NoTool`. -/
theorem C2_null_function_noTool_witness :
    ([(("other" : String), Json.bool true)].filter
        (fun p => p.1 == "function") = []) ∧
    (stripSurroundingQuotes
        (trimLower ⟨dquo :: ("NULL".data ++ [dquo])⟩).data = "null".data) ∧
    (request_function (parse_functions ["rust_toolchain_switcher"])
        (.wellFormed (.obj [("other", Json.bool true)])) = .ok none ∧
      request_function (parse_functions ["rust_toolchain_switcher"])
        (.wellFormed (.obj [("function", Json.null)])) = .ok none ∧
      request_function (parse_functions ["rust_toolchain_switcher"])
        (.wellFormed (.obj [("function",
          .str ⟨dquo :: ("NULL".data ++ [dquo])⟩)])) = .ok none) :=
  ⟨rfl, by decide,
    C2_null_function_noTool ["rust_toolchain_switcher"] _ _ rfl
      (by decide)⟩

/-- C4: backend decision output that is not JSON at all, not a JSON object,
or an object whose single `function` field has a non-string non-null
type, makes `request_function` fail with a hard error rather than
return any Decision. -/
theorem C4_strict_parse_hard_error (functions : List (String × ToolImpl))
    (t : String) (j : Json) (fields : List (String × Json)) (k : String)
    (v : Json) (hobj : ∀ fs2, j ≠ .obj fs2)
    (hfld : fields.filter (fun p => p.1 == "function") = [(k, v)])
    (hstr : ∀ s, v ≠ .str s) (hnul : v ≠ .null) :
    (∃ e, request_function functions (.malformed t) = .error e) ∧
    (∃ e, request_function functions (.wellFormed j) = .error e) ∧
    (∃ e, request_function functions (.wellFormed (.obj fields)) = .error e) := by
  refine ⟨⟨"expected value: " ++ t, rfl⟩, ?_, ?_⟩
  · cases j with
    | null => exact ⟨_, rfl⟩
    | bool b => exact ⟨_, rfl⟩
    | num n => exact ⟨_, rfl⟩
    | str s => exact ⟨_, rfl⟩
    | arr elems => exact ⟨_, rfl⟩
    | obj fs2 => exact absurd rfl (hobj fs2)
  · simp only [request_function, fromStrFucntionResponse, hfld]
    cases v with
    | null => exact absurd rfl hnul
    | str s => exact absurd rfl (hstr s)
    | bool b => exact ⟨_, rfl⟩
    | num n => exact ⟨_, rfl⟩
    | arr elems => exact ⟨_, rfl⟩
    | obj fs2 => exact ⟨_, rfl⟩

/-- Witness for C4: malformed text, a JSON array, and an object whose
`function` field is the number `7` each produce a hard error. -/
theorem C4_strict_parse_hard_error_witness :
    (∀ fs2, Json.arr [] ≠ Json.obj fs2) ∧
    ([(("function" : String), Json.num 7)].filter
        (fun p => p.1 == "function") = [("function", Json.num 7)]) ∧
    ((∃ e, request_function (parse_functions []) (.malformed "oops") =
        .error e) ∧
      (∃ e, request_function (parse_functions [])
          (.wellFormed (.arr [])) = .error e) ∧
      (∃ e, request_function (parse_functions [])
          (.wellFormed (.obj [("function", Json.num 7)])) = .error e)) :=
  ⟨fun _ h => Json.noConfusion h, rfl,
    C4_strict_parse_hard_error (parse_functions []) "oops" (.arr [])
      [("function", Json.num 7)] "function" (Json.num 7)
      (fun _ h => Json.noConfusion h) rfl
      (fun _ h => Json.noConfusion h) (fun h => Json.noConfusion h)⟩

/-- C5: catalog construction never fails (it is a total function); the
empty list yields the empty catalog; only normalized names of known
capabilities become keys (any other name is excluded); and a requested
name matching a known capability after trimming and lower-casing is
inserted under its normalized name. -/
theorem C5_parse_functions_catalog :
    parse_functions [] = [] ∧
    (∀ (fs : List String) (k : String), k ≠ "ddg_searcher" →
      k ≠ "rust_toolchain_switcher" →
      mapLookup (parse_functions fs) k = none) ∧
    (∀ (fs : List String) (f : String), f ∈ fs →
      trimLower f = "ddg_searcher" →
      mapLookup (parse_functions fs) "ddg_searcher" = some .ddgSearcher) ∧
    (∀ (fs : List String) (f : String), f ∈ fs →
      trimLower f = "rust_toolchain_switcher" →
      mapLookup (parse_functions fs) "rust_toolchain_switcher" =
        some .rustToolchainSwitcher) := by
  refine ⟨rfl, fun fs k h1 h2 => mapLookup_parse_functions_other fs k h1 h2,
    ?_, ?_⟩
  · intro fs f hf ht
    exact foldl_parseStep_inserts_known _ _ (Or.inl ⟨rfl, rfl⟩) fs [] f hf ht
  · intro fs f hf ht
    exact foldl_parseStep_inserts_known _ _ (Or.inr ⟨rfl, rfl⟩) fs [] f hf ht

/-- Witness for C5: the empty catalog; `web_search` is excluded; a padded
mixed-case `DDG_Searcher` and a plain `rust_toolchain_switcher` are
inserted under their normalized names. -/
theorem C5_parse_functions_catalog_witness :
    parse_functions [] = [] ∧
    mapLookup (parse_functions ["web_search"]) "web_search" = none ∧
    mapLookup (parse_functions [" DDG_Searcher ", "web_search"])
        "ddg_searcher" = some .ddgSearcher ∧
    mapLookup (parse_functions ["rust_toolchain_switcher"])
        "rust_toolchain_switcher" = some .rustToolchainSwitcher :=
  ⟨C5_parse_functions_catalog.1,
    C5_parse_functions_catalog.2.1 ["web_search"] "web_search" (by decide)
      (by decide),
    C5_parse_functions_catalog.2.2.1 [" DDG_Searcher ", "web_search"]
      " DDG_Searcher " (by decide) (by decide),
    C5_parse_functions_catalog.2.2.2 ["rust_toolchain_switcher"]
      "rust_toolchain_switcher" (by decide) (by decide)⟩

/-- C8 counterexample: the decision parser accepts a JSON object carrying a
field beyond `function` (serde ignores unknown fields by default), so
the wire contract does not reject every other object shape as the
claim states. -/
theorem C8_extra_field_accepted :
    fromStrFucntionResponse
        (.wellFormed (.obj [("function", Json.null), ("extra", Json.num 1)])) =
      .ok none := rfl

/-- C8 amended: the decision parser requires a JSON object whose `function`
field (at most one occurrence) is a string or null, but it ignores
additional fields: prepending a field with any other key leaves the
parse result unchanged. -/
theorem C8_amended_extra_fields_ignored (k : String) (v : Json)
    (fields : List (String × Json)) (h : k ≠ "function") :
    fromStrFucntionResponse (.wellFormed (.obj ((k, v) :: fields))) =
      fromStrFucntionResponse (.wellFormed (.obj fields)) := by
  have hb : (k == "function") = false := beq_eq_false_iff_ne.mpr h
  show parseFunctionField (((k, v) :: fields).filter
      (fun p => p.1 == "function")) =
    parseFunctionField (fields.filter (fun p => p.1 == "function"))
  rw [List.filter_cons]
  simp [hb]

/-- Witness for C8's amended claim: the key `extra` differs from `function`
and adding `extra: 1` before `function: "x"` does not change the
parse. -/
theorem C8_amended_extra_fields_ignored_witness :
    ("extra" : String) ≠ "function" ∧
    fromStrFucntionResponse
        (.wellFormed (.obj [("extra", Json.num 1), ("function", .str "x")])) =
      fromStrFucntionResponse (.wellFormed (.obj [("function", .str "x")])) :=
  ⟨by decide,
    C8_amended_extra_fields_ignored "extra" (Json.num 1)
      [("function", .str "x")] (by decide)⟩

/-- C3 counterexample: with tool `rust_toolchain_switcher` selected and
`call_function` failing, `generate_stream` surfaces the tool error to
the caller; it does not complete via the direct-generation path, so the
claimed fallback behaviour does not hold on this code (the `?` on
`self.call_function(...)` at shark.rs line 80 propagates the error). -/
theorem C3_tool_error_surfaced :
    (generate_stream (parse_functions ["rust_toolchain_switcher"])
        (BackendEnv.mk
          (.ok (.wellFormed (.obj [("function", .str "rust_toolchain_switcher")])))
          (.error "tool failed") (.ok ())) "switch to nightly").1 =
      .err "tool failed" := rfl

/-- C3 amended: when the decision is `UseTool` and the tool invocation
(`call_function`) fails with an error, `generate_stream` propagates
that error to the caller; the code implements the propagate-error
policy, and no fallback to direct generation occurs. -/
theorem C3_amended_tool_error_propagates (functions : List (String × ToolImpl))
    (env : BackendEnv) (question : String) (raw : RawJson) (func : ToolImpl)
    (e : String) (hdec : env.decisionResponse = .ok raw)
    (hfn : request_function functions raw = .ok (some func))
    (hcall : env.functionCallResponse = .error e) :
    (generate_stream functions env question).1 = .err e := by
  simp only [generate_stream, hdec, hfn, call_function, hcall]

/-- Witness for C3's amended claim: a concrete run where the backend
selects `ddg_searcher` and the function call errors with `boom`. -/
theorem C3_amended_tool_error_propagates_witness :
    (BackendEnv.mk
        (.ok (.wellFormed (.obj [("function", .str "ddg_searcher")])))
        (.error "boom") (.ok ())).decisionResponse =
      .ok (.wellFormed (.obj [("function", .str "ddg_searcher")])) ∧
    request_function (parse_functions ["ddg_searcher"])
        (.wellFormed (.obj [("function", .str "ddg_searcher")])) =
      .ok (some .ddgSearcher) ∧
    (generate_stream (parse_functions ["ddg_searcher"])
        (BackendEnv.mk
          (.ok (.wellFormed (.obj [("function", .str "ddg_searcher")])))
          (.error "boom") (.ok ())) "a question").1 = .err "boom" :=
  ⟨rfl, rfl,
    C3_amended_tool_error_propagates (parse_functions ["ddg_searcher"]) _
      "a question" _ .ddgSearcher "boom" rfl rfl rfl⟩

/-- C6: when a tool is selected and its invocation succeeds, the
summarization prompt streamed to the backend is the rendered summary
template, and that rendered prompt contains both the original question
text and the tool's output text, for every question string and every
tool output string. -/
theorem C6_summary_prompt_contains (functions : List (String × ToolImpl))
    (env : BackendEnv) (question : String) (raw : RawJson) (func : ToolImpl)
    (msg : ChatMessage) (hdec : env.decisionResponse = .ok raw)
    (hfn : request_function functions raw = .ok (some func))
    (hcall : env.functionCallResponse = .ok ⟨some msg⟩)
    (hstream : env.streamResult = .ok ()) :
    (generate_stream functions env question).1 =
        .ok (.tool, ⟨renderSummary question msg.content⟩) ∧
    (∃ l r, (renderSummary question msg.content).data =
        l ++ question.data ++ r) ∧
    (∃ l r, (renderSummary question msg.content).data =
        l ++ msg.content.data ++ r) := by
  refine ⟨?_, ?_, ?_⟩
  · simp only [generate_stream, hdec, hfn, call_function, hcall,
      summarize_stream, hstream]
  · refine ⟨("\nYou are a helpful assistant called shark🦈, given user"
        ++ ⟨[apos]⟩ ++ "s question: ").data,
      (" and the answer of the question: " ++ msg.content
        ++ ", try to give a short summary.\nJust response your summary content.\n").data,
      ?_⟩
    simp [renderSummary, data_append, List.append_assoc]
  · refine ⟨("\nYou are a helpful assistant called shark🦈, given user"
        ++ ⟨[apos]⟩ ++ "s question: " ++ question
        ++ " and the answer of the question: ").data,
      (", try to give a short summary.\nJust response your summary content.\n").data,
      ?_⟩
    simp [renderSummary, data_append, List.append_assoc]

/-- Witness for C6: concrete run with question `what is rust` and tool
output `a language`. -/
theorem C6_summary_prompt_contains_witness :
    (BackendEnv.mk
        (.ok (.wellFormed (.obj [("function", .str "ddg_searcher")])))
        (.ok ⟨some ⟨"a language"⟩⟩) (.ok ())).decisionResponse =
      .ok (.wellFormed (.obj [("function", .str "ddg_searcher")])) ∧
    request_function (parse_functions ["ddg_searcher"])
        (.wellFormed (.obj [("function", .str "ddg_searcher")])) =
      .ok (some .ddgSearcher) ∧
    ((generate_stream (parse_functions ["ddg_searcher"])
          (BackendEnv.mk
            (.ok (.wellFormed (.obj [("function", .str "ddg_searcher")])))
            (.ok ⟨some ⟨"a language"⟩⟩) (.ok ())) "what is rust").1 =
        .ok (.tool, ⟨renderSummary "what is rust" "a language"⟩) ∧
      (∃ l r, (renderSummary "what is rust" "a language").data =
          l ++ "what is rust".data ++ r) ∧
      (∃ l r, (renderSummary "what is rust" "a language").data =
          l ++ "a language".data ++ r)) :=
  ⟨rfl, rfl,
    C6_summary_prompt_contains (parse_functions ["ddg_searcher"]) _
      "what is rust" _ .ddgSearcher ⟨"a language"⟩ rfl rfl rfl rfl⟩

/-- C7: every successful run of `generate_stream` takes exactly one of the
two paths — tool (with a function call in its trace) or direct (with no
function call) — and in both cases the run's last backend interaction
is opening the streaming generation on the final prompt, which is the
single streaming event of the trace. -/
theorem C7_exactly_one_path (functions : List (String × ToolImpl))
    (env : BackendEnv) (question : String) (p : PathTaken)
    (stream : GenerationResponseStream) (tr : List Event)
    (h : generate_stream functions env question = (.ok (p, stream), tr)) :
    tr.countP (fun ev => ev.isStream) = 1 ∧
    tr.getLast? = some (.streamedGeneration stream.prompt) ∧
    ((p = .tool ∧ tr.any Event.isCall = true) ∨
      (p = .direct ∧ tr.any Event.isCall = false)) := by
  cases hdec : env.decisionResponse with
  | error e => simp [generate_stream, hdec] at h
  | ok raw =>
    cases hfn : request_function functions raw with
    | error e => simp [generate_stream, hdec, hfn] at h
    | ok dec =>
      cases dec with
      | none =>
        cases hstream : env.streamResult with
        | error e => simp [generate_stream, hdec, hfn, hstream] at h
        | ok u =>
          simp only [generate_stream, hdec, hfn, hstream, Prod.mk.injEq,
            RunResult.ok.injEq] at h
          obtain ⟨⟨hp, hs⟩, ht⟩ := h
          subst hp; subst hs; subst ht
          refine ⟨by simp [List.countP_cons, Event.isStream], by rfl,
            Or.inr ⟨rfl, by simp [List.any_cons, Event.isCall]⟩⟩
      | some func =>
        cases hcall : env.functionCallResponse with
        | error e =>
          simp [generate_stream, hdec, hfn, call_function, hcall] at h
        | ok resp =>
          cases hmsg : resp.message with
          | none =>
            simp [generate_stream, hdec, hfn, call_function, hcall, hmsg] at h
          | some msg =>
            cases hstream : env.streamResult with
            | error e =>
              simp [generate_stream, hdec, hfn, call_function, hcall, hmsg,
                summarize_stream, hstream] at h
            | ok u =>
              simp only [generate_stream, hdec, hfn, call_function, hcall,
                hmsg, summarize_stream, hstream, Prod.mk.injEq,
                RunResult.ok.injEq] at h
              obtain ⟨⟨hp, hs⟩, ht⟩ := h
              subst hp; subst hs; subst ht
              refine ⟨by simp [List.countP_cons, Event.isStream], by rfl,
                Or.inl ⟨rfl, by simp [List.any_cons, Event.isCall]⟩⟩

/-- Witness for C7: a concrete direct-path run (the backend decides
`null`), whose trace has the decision round trip followed by the single
streaming-generation step. -/
theorem C7_exactly_one_path_witness :
    generate_stream (parse_functions [])
        (BackendEnv.mk (.ok (.wellFormed (.obj []))) (.error "unused")
          (.ok ())) "hi" =
      (.ok (.direct, ⟨renderGeneration "hi"⟩),
        [.generated (renderFunctionCalling "hi"
            (functions_description (parse_functions []))),
          .streamedGeneration (renderGeneration "hi")]) ∧
    ([Event.generated (renderFunctionCalling "hi"
          (functions_description (parse_functions []))),
        Event.streamedGeneration (renderGeneration "hi")].countP
        (fun ev => ev.isStream) = 1 ∧
      [Event.generated (renderFunctionCalling "hi"
            (functions_description (parse_functions []))),
          Event.streamedGeneration (renderGeneration "hi")].getLast? =
        some (.streamedGeneration
          (GenerationResponseStream.mk (renderGeneration "hi")).prompt) ∧
      ((PathTaken.direct = .tool ∧
          [Event.generated (renderFunctionCalling "hi"
              (functions_description (parse_functions []))),
            Event.streamedGeneration (renderGeneration "hi")].any
            Event.isCall = true) ∨
        (PathTaken.direct = .direct ∧
          [Event.generated (renderFunctionCalling "hi"
              (functions_description (parse_functions []))),
            Event.streamedGeneration (renderGeneration "hi")].any
            Event.isCall = false))) :=
  ⟨rfl,
    C7_exactly_one_path (parse_functions [])
      (BackendEnv.mk (.ok (.wellFormed (.obj []))) (.error "unused") (.ok ()))
      "hi" .direct ⟨renderGeneration "hi"⟩
      [.generated (renderFunctionCalling "hi"
          (functions_description (parse_functions []))),
        .streamedGeneration (renderGeneration "hi")] rfl⟩

/-- C9: `RustToolchainSwitcher::run` requires its JSON input to have a
string `toolchain` field: when `input["toolchain"]` is absent or not a
string, `run` panics (`unwrap` on `None` at rust_toolchain_switcher.rs
line 35) instead of returning a tool error; when the field is a string,
the panic branch is unreachable. -/
theorem C9_toolchain_field_required
    (exec : String → Except String ProcessOutput) (input : Json) :
    ((jsonIndex input "toolchain").as_str = none →
      RustToolchainSwitcher.run exec input = .panics) ∧
    (∀ s, jsonIndex input "toolchain" = .str s →
      RustToolchainSwitcher.run exec input ≠ .panics) := by
  constructor
  · intro h
    simp only [RustToolchainSwitcher.run, h]
  · intro s h hpan
    have hs : (jsonIndex input "toolchain").as_str = some s := by
      rw [h]
      rfl
    simp only [RustToolchainSwitcher.run, hs] at hpan
    cases hex : exec s with
    | error e => rw [hex] at hpan; exact RunResult.noConfusion hpan
    | ok output => rw [hex] at hpan; exact RunResult.noConfusion hpan

/-- Witness for C9: `run` panics on the empty object, and does not panic
when `toolchain` is the string `nightly`. -/
theorem C9_toolchain_field_required_witness :
    ((jsonIndex (Json.obj []) "toolchain").as_str = none ∧
      RustToolchainSwitcher.run (fun _ => .ok ⟨"", ""⟩) (Json.obj []) =
        .panics) ∧
    (jsonIndex (Json.obj [("toolchain", .str "nightly")]) "toolchain" =
        .str "nightly" ∧
      RustToolchainSwitcher.run (fun _ => .ok ⟨"", ""⟩)
        (Json.obj [("toolchain", .str "nightly")]) ≠ .panics) :=
  ⟨⟨rfl,
      (C9_toolchain_field_required (fun _ => .ok ⟨"", ""⟩) (Json.obj [])).1
        rfl⟩,
    ⟨rfl,
      (C9_toolchain_field_required (fun _ => .ok ⟨"", ""⟩)
          (Json.obj [("toolchain", .str "nightly")])).2 "nightly" rfl⟩⟩

/-- C10: on the tool path, a successful function-call response carrying no
message makes `generate_stream` panic (`unwrap` on `None` at shark.rs
line 81) rather than return an error; and under the precondition that
every successful function-call response carries a message, the panic
branch is unreachable. -/
theorem C10_missing_message_panics :
    (∀ (functions : List (String × ToolImpl)) (env : BackendEnv)
        (question : String) (raw : RawJson) (func : ToolImpl)
        (resp : ChatMessageResponse),
      env.decisionResponse = .ok raw →
      request_function functions raw = .ok (some func) →
      env.functionCallResponse = .ok resp → resp.message = none →
      (generate_stream functions env question).1 = .panics) ∧
    (∀ (functions : List (String × ToolImpl)) (env : BackendEnv)
        (question : String),
      (∀ resp, env.functionCallResponse = .ok resp → resp.message.isSome) →
      (generate_stream functions env question).1 ≠ .panics) := by
  constructor
  · intro functions env question raw func resp hdec hfn hcall hmsg
    simp only [generate_stream, hdec, hfn, call_function, hcall, hmsg]
  · intro functions env question hsome
    cases hdec : env.decisionResponse with
    | error e => simp [generate_stream, hdec]
    | ok raw =>
      cases hfn : request_function functions raw with
      | error e => simp [generate_stream, hdec, hfn]
      | ok dec =>
        cases dec with
        | none =>
          cases hstream : env.streamResult with
          | error e => simp [generate_stream, hdec, hfn, hstream]
          | ok u => simp [generate_stream, hdec, hfn, hstream]
        | some func =>
          cases hcall : env.functionCallResponse with
          | error e =>
            simp [generate_stream, hdec, hfn, call_function, hcall]
          | ok resp =>
            have hms := hsome resp hcall
            cases hmsg : resp.message with
            | none => rw [hmsg] at hms; exact absurd hms (by simp)
            | some msg =>
              cases hstream : env.streamResult with
              | error e =>
                simp [generate_stream, hdec, hfn, call_function, hcall,
                  hmsg, summarize_stream, hstream]
              | ok u =>
                simp [generate_stream, hdec, hfn, call_function, hcall,
                  hmsg, summarize_stream, hstream]

/-- Witness for C10: with the message absent the run panics; with a
message present it does not. -/
theorem C10_missing_message_panics_witness :
    (generate_stream (parse_functions ["ddg_searcher"])
        (BackendEnv.mk
          (.ok (.wellFormed (.obj [("function", .str "ddg_searcher")])))
          (.ok ⟨none⟩) (.ok ())) "q").1 = .panics ∧
    (generate_stream (parse_functions ["ddg_searcher"])
        (BackendEnv.mk
          (.ok (.wellFormed (.obj [("function", .str "ddg_searcher")])))
          (.ok ⟨some ⟨"ans"⟩⟩) (.ok ())) "q").1 ≠ .panics :=
  ⟨C10_missing_message_panics.1 (parse_functions ["ddg_searcher"]) _ "q" _
      .ddgSearcher ⟨none⟩ rfl rfl rfl rfl,
    C10_missing_message_panics.2 (parse_functions ["ddg_searcher"]) _ "q"
      (fun resp h => by
        injection h with h2
        rw [← h2]
        rfl)⟩

end Shark
